import Mathlib

/-!
# CarStatus: the shared perception-state hub of open-adas

A shallow embedding of `src/car_status/car_status.cpp`.  Every member function is a pure
function on an explicit hub state; a function that reads the clock takes the clock reading
`now` as an argument (one reading per call: the clock does not advance between the
statements of one call).  In these functions each operation is one atomic step; the
`std::lock_guard`s are modelled apart from them, as the list of mutexes each member function
locks (section "Locks").

The declarations of `car_status.h`, `timer.h` and the configuration header are not part of
the sources at hand, so

* the four time constants are fields of `TimeConstants`, a parameter of every operation
  that uses one;
* a `Timer::time_point_t` is an integer number of clock ticks;
* `Timer::time_duration_t`, the type of the two detection-time estimates, is a type
  parameter `D` with its own `*`, `+` and decimal literals;
* `car_speed` (a C++ `float`) is an exact rational number, compared with the `int` speed
  limit after an exact conversion;
* `TrafficObject` and `LaneLine`, which the hub only stores and copies, are type parameters;
* `IMG_MAX_SIZE` and the default-constructed advisory `MaxSpeedLimit()` are parameters of
  the operations that use them.

Images are OpenCV `cv::Mat` values.  A `cv::Mat` is a header that refers to a pixel buffer, so
the operations on images pass the pixel memory along explicitly.  The resize ratio (a C++
`float`) is an exact rational number.
-/

/-! ## Data model -/

/-- The speed-limit advisory record (`MaxSpeedLimit`), with the six fields that
`car_status.cpp` reads and writes. -/
structure MaxSpeedLimit where
  speed_limit : Int
  has_notified : Bool
  begin_time : Int
  overspeed_warning : Bool
  overspeed_warning_has_notified : Bool
  overspeed_warning_notified_time : Int
deriving DecidableEq, Repr

/-- The four tunable time constants used by the advisory state machine.  They are defined
outside `car_status.cpp`; here they are parameters. -/
structure TimeConstants where
  MAX_SPEED_SIGN_VALID_TIME : Int
  OVERSPEED_WARNING_AFTER_TRAFFIC_SIGN : Int
  OVERSPEED_WARNING_INTERVAL : Int
  TIME_TO_RENOTIFY_A_SAME_TRAFFIC_SIGN : Int
deriving DecidableEq, Repr

/-- Modelled from the spec: `Timer::calcTimePassed` (declared in `timer.h`, which is not among
the sources) is the "elapsed time since" a time point: the clock reading `now` minus that
time point. -/
def Timer.calcTimePassed (now : Int) (begin_time : Int) : Int :=
  now - begin_time

/-- An OpenCV image header (`cv::Mat`): the dimensions and the pixel buffer the header refers
to (`none` for a header without data).  Copying a header, by `operator=` or by copy
construction, gives a second header for the same buffer; only `clone()` makes a new
buffer. -/
structure Mat where
  cols : Int
  rows : Int
  data : Option Nat
deriving DecidableEq, Repr

/-- The pixel buffers allocated so far.  The address of a buffer is its position in the
list; a buffer is a list of pixel values. -/
structure PixelMemory where
  buffers : List (List Nat)
deriving DecidableEq, Repr

/-- The pixels an image header shows: the contents of the buffer it refers to. -/
def PixelMemory.pixels (m : PixelMemory) (img : Mat) : List Nat :=
  match img.data with
  | none => []
  | some a => m.buffers.getD a []

/-- A caller writes the pixels `px` in place through the header `img` (as `img.setTo(...)` or
a drawing call does): the buffer `img` refers to changes, for every header that shares it. -/
def PixelMemory.overwrite (m : PixelMemory) (img : Mat) (px : List Nat) : PixelMemory :=
  match img.data with
  | none => m
  | some a => { buffers := m.buffers.set a px }

/-- `cv::Mat::clone()`: a header with the same dimensions for a newly allocated buffer that
holds a copy of the pixels.  A header without data has nothing to copy. -/
def Mat.clone (img : Mat) (m : PixelMemory) : Mat × PixelMemory :=
  match img.data with
  | none => (img, m)
  | some _ =>
    ({ img with data := some m.buffers.length },
      { buffers := m.buffers ++ [m.pixels img] })

/-- `cvRound` of OpenCV: the nearest integer, a tie going to the even neighbour. -/
def cvRound (x : ℚ) : Int :=
  if x - ⌊x⌋ < 1 / 2 then ⌊x⌋
  else if x - ⌊x⌋ > 1 / 2 then ⌊x⌋ + 1
  else if ⌊x⌋ % 2 = 0 then ⌊x⌋
  else ⌊x⌋ + 1

/-- `cv::resize(src, dst, cv::Size(), fx, fy)` of OpenCV (library code), as its reference
documentation gives it: with no explicit size the output size is
`Size(round(fx * src.cols), round(fy * src.rows))`, and the call raises an error when the
source size, a scale factor or the output size is not positive.  The result is a header for a
new buffer.  The interpolated pixels are `resample pixels cols rows`, a parameter. -/
def cvResize (resample : List Nat → Int → Int → List Nat) (src : Mat) (fx fy : ℚ)
    (m : PixelMemory) : Option (Mat × PixelMemory) :=
  if src.cols > 0 ∧ src.rows > 0 ∧ fx > 0 ∧ fy > 0 ∧
      cvRound (fx * src.cols) > 0 ∧ cvRound (fy * src.rows) > 0 then
    some
      ({ cols := cvRound (fx * src.cols)
         rows := cvRound (fy * src.rows)
         data := some m.buffers.length },
        { buffers := m.buffers ++
            [resample (m.pixels src) (cvRound (fx * src.cols)) (cvRound (fy * src.rows))] })
  else
    none

/-- The hub state (`CarStatus`): the member variables that `car_status.cpp` reads and
writes.  `D` is `Timer::time_duration_t`. -/
structure CarStatus (D TrafficObject LaneLine : Type) where
  start_time : Int
  current_img : Mat
  current_img_origin_size : Mat
  detected_objects : List TrafficObject
  detected_lane_lines : List LaneLine
  lane_line_mask : Mat
  detected_line_img : Mat
  reduced_line_img : Mat
  car_speed : ℚ
  object_detection_time : D
  lane_detection_time : D
  speed_limit : MaxSpeedLimit

namespace CarStatus

variable {D TrafficObject LaneLine : Type}

/-! ## Start time and reset -/

/-- `CarStatus::reset`.  `dflt` is the value of the default-constructed `MaxSpeedLimit()`,
which `car_status.h` declares. -/
def reset (dflt : MaxSpeedLimit) (now : Int) (s : CarStatus D TrafficObject LaneLine) :
    CarStatus D TrafficObject LaneLine :=
  { s with start_time := now, speed_limit := dflt }

/-- `CarStatus::getStartTime`. -/
def getStartTime (s : CarStatus D TrafficObject LaneLine) : Int :=
  s.start_time

/-! ## Images, detected objects and lane lines -/

/-- `CarStatus::resizeByMaxSize`.  The early `return img` hands back the caller's header
itself; the two other branches return the header made by `cv::resize`, which can fail. -/
def resizeByMaxSize (resample : List Nat → Int → Int → List Nat) (img : Mat) (max_size : Int)
    (m : PixelMemory) : Option (Mat × PixelMemory) :=
  let width := img.cols
  let height := img.rows
  if (width < max_size ∧ height < max_size) ∨ max_size ≤ 0 then
    some (img, m)
  else if width > height then
    let resize_ratio : ℚ := (max_size : ℚ) / (width : ℚ)
    cvResize resample img resize_ratio resize_ratio m
  else
    let resize_ratio : ℚ := (max_size : ℚ) / (height : ℚ)
    cvResize resample img resize_ratio resize_ratio m

/-- `CarStatus::setCurrentImage`.  `IMG_MAX_SIZE` is a constant defined outside
`car_status.cpp`.  The call fails when the resize step fails. -/
def setCurrentImage (resample : List Nat → Int → Int → List Nat) (IMG_MAX_SIZE : Int)
    (img : Mat) (m : PixelMemory) (s : CarStatus D TrafficObject LaneLine) :
    Option (PixelMemory × CarStatus D TrafficObject LaneLine) :=
  match resizeByMaxSize resample img IMG_MAX_SIZE m with
  | none => none
  | some (resized, m1) =>
    let stored := resized.clone m1
    let origin := img.clone stored.2
    some (origin.2, { s with current_img := stored.1, current_img_origin_size := origin.1 })

/-- `CarStatus::getCurrentImage()`: the returned image and the pixel memory after the
copy. -/
def getCurrentImage (s : CarStatus D TrafficObject LaneLine) (m : PixelMemory) :
    Mat × PixelMemory :=
  s.current_img.clone m

/-- `CarStatus::getCurrentImage(image, original_image)`: the two images written to the
reference arguments, and the pixel memory after the copies. -/
def getCurrentImageBoth (s : CarStatus D TrafficObject LaneLine) (m : PixelMemory) :
    Mat × Mat × PixelMemory :=
  let image := s.current_img.clone m
  let original_image := s.current_img_origin_size.clone image.2
  (image.1, original_image.1, original_image.2)

/-- `CarStatus::setDetectedObjects`. -/
def setDetectedObjects (objects : List TrafficObject)
    (s : CarStatus D TrafficObject LaneLine) : CarStatus D TrafficObject LaneLine :=
  { s with detected_objects := objects }

/-- `CarStatus::getDetectedObjects`. -/
def getDetectedObjects (s : CarStatus D TrafficObject LaneLine) : List TrafficObject :=
  s.detected_objects

/-- `CarStatus::setDetectedLaneLines` with four arguments.  The three images are stored by
`operator=`, which copies the header: no pixel buffer is allocated. -/
def setDetectedLaneLines (lane_lines : List LaneLine) (lane_line_mask : Mat)
    (detected_line_img : Mat) (reduced_line_img : Mat)
    (s : CarStatus D TrafficObject LaneLine) : CarStatus D TrafficObject LaneLine :=
  { s with
    detected_lane_lines := lane_lines
    lane_line_mask := lane_line_mask
    detected_line_img := detected_line_img
    reduced_line_img := reduced_line_img }

/-- `CarStatus::setDetectedLaneLines` with one argument. -/
def setDetectedLaneLinesOnly (lane_lines : List LaneLine)
    (s : CarStatus D TrafficObject LaneLine) : CarStatus D TrafficObject LaneLine :=
  { s with detected_lane_lines := lane_lines }

/-- `CarStatus::getDetectedLaneLines`. -/
def getDetectedLaneLines (s : CarStatus D TrafficObject LaneLine) : List LaneLine :=
  s.detected_lane_lines

/-- `CarStatus::getLineMask`. -/
def getLineMask (s : CarStatus D TrafficObject LaneLine) (m : PixelMemory) :
    Mat × PixelMemory :=
  s.lane_line_mask.clone m

/-- `CarStatus::getDetectedLinesViz`. -/
def getDetectedLinesViz (s : CarStatus D TrafficObject LaneLine) (m : PixelMemory) :
    Mat × PixelMemory :=
  s.detected_line_img.clone m

/-- `CarStatus::getReducedLinesViz`. -/
def getReducedLinesViz (s : CarStatus D TrafficObject LaneLine) (m : PixelMemory) :
    Mat × PixelMemory :=
  s.reduced_line_img.clone m

/-! ## Scalar accessors -/

/-- `CarStatus::getCarSpeed`. -/
def getCarSpeed (s : CarStatus D TrafficObject LaneLine) : ℚ :=
  s.car_speed

/-- `CarStatus::setCarSpeed`. -/
def setCarSpeed (speed : ℚ) (s : CarStatus D TrafficObject LaneLine) : CarStatus D TrafficObject LaneLine :=
  { s with car_speed := speed }

/-! ## Detection-time estimates -/

/-- `CarStatus::setObjectDetectionTime`:
`object_detection_time = object_detection_time * 0.8 + duration * 0.2`. -/
def setObjectDetectionTime [Mul D] [Add D] [OfScientific D] (duration : D)
    (s : CarStatus D TrafficObject LaneLine) : CarStatus D TrafficObject LaneLine :=
  { s with object_detection_time := s.object_detection_time * 0.8 + duration * 0.2 }

/-- `CarStatus::getObjectDetectionTime`. -/
def getObjectDetectionTime (s : CarStatus D TrafficObject LaneLine) : D :=
  s.object_detection_time

/-- `CarStatus::setLaneDetectionTime`:
`lane_detection_time = lane_detection_time * 0.8 + duration * 0.2`. -/
def setLaneDetectionTime [Mul D] [Add D] [OfScientific D] (duration : D)
    (s : CarStatus D TrafficObject LaneLine) : CarStatus D TrafficObject LaneLine :=
  { s with lane_detection_time := s.lane_detection_time * 0.8 + duration * 0.2 }

/-- `CarStatus::getLaneDetectionTime`. -/
def getLaneDetectionTime (s : CarStatus D TrafficObject LaneLine) : D :=
  s.lane_detection_time

/-! ## Speed-limit advisory -/

/-- First statement of `CarStatus::getMaxSpeedLimit`: "Turn off speed limit if expired". -/
def expireSpeedLimit (K : TimeConstants) (now : Int) (sl : MaxSpeedLimit) : MaxSpeedLimit :=
  if Timer.calcTimePassed now sl.begin_time > K.MAX_SPEED_SIGN_VALID_TIME then
    { sl with speed_limit := -1 }
  else
    sl

/-- Second statement of `CarStatus::getMaxSpeedLimit`: the three-way
`if / else if / else if` ("Check for overspeed"), on the record left by the expiry step.
`car` is the value of `getCarSpeed()`. -/
def checkOverspeed (K : TimeConstants) (now : Int) (car : ℚ) (sl : MaxSpeedLimit) :
    MaxSpeedLimit :=
  if sl.speed_limit > 0 ∧
      car > (sl.speed_limit : ℚ) ∧
      sl.overspeed_warning = false ∧
      Timer.calcTimePassed now sl.begin_time > K.OVERSPEED_WARNING_AFTER_TRAFFIC_SIGN then
    { sl with
      overspeed_warning := true
      overspeed_warning_has_notified := false
      overspeed_warning_notified_time := now }
  else if car ≤ (sl.speed_limit : ℚ) then
    { sl with overspeed_warning := false }
  else if sl.overspeed_warning_has_notified = true ∧
      Timer.calcTimePassed now sl.overspeed_warning_notified_time
        > K.OVERSPEED_WARNING_INTERVAL then
    { sl with overspeed_warning_has_notified := false }
  else
    sl

/-- `CarStatus::getMaxSpeedLimit`: returns the view `ret_speed_limit` and the hub state
left behind. -/
def getMaxSpeedLimit (K : TimeConstants) (now : Int) (s : CarStatus D TrafficObject LaneLine) :
    MaxSpeedLimit × CarStatus D TrafficObject LaneLine :=
  let expired := expireSpeedLimit K now s.speed_limit
  let checked := checkOverspeed K now s.getCarSpeed expired
  let ret_speed_limit := checked
  (ret_speed_limit,
    { s with
      speed_limit :=
        { checked with has_notified := true, overspeed_warning_has_notified := true } })

/-- `CarStatus::removeSpeedLimit` (the line printed on standard output is not modelled). -/
def removeSpeedLimit (s : CarStatus D TrafficObject LaneLine) : CarStatus D TrafficObject LaneLine :=
  { s with speed_limit := { s.speed_limit with has_notified := false, speed_limit := 0 } }

/-- `CarStatus::triggerSpeedLimit` (the line printed on standard output is not
modelled). -/
def triggerSpeedLimit (K : TimeConstants) (now : Int) (speed : Int) (s : CarStatus D TrafficObject LaneLine) :
    CarStatus D TrafficObject LaneLine :=
  if speed ≠ s.speed_limit.speed_limit ∨
      Timer.calcTimePassed now s.speed_limit.begin_time
        > K.TIME_TO_RENOTIFY_A_SAME_TRAFFIC_SIGN then
    { s with
      speed_limit :=
        { s.speed_limit with has_notified := false, speed_limit := speed, begin_time := now } }
  else
    s

/-! ## Sequences of calls -/

/-- A run of consecutive reads of the advisory with no other advisory operation in between.
Each entry is the car speed stored by `setCarSpeed` before the read and the clock reading of
the read; the result lists the views returned by `getMaxSpeedLimit`, in call order. -/
def getMaxSpeedLimitRun (K : TimeConstants) : List (ℚ × Int) → CarStatus D TrafficObject LaneLine → List MaxSpeedLimit
  | [], _ => []
  | (car, now) :: rest, s =>
    ((s.setCarSpeed car).getMaxSpeedLimit K now).1 ::
      getMaxSpeedLimitRun K rest ((s.setCarSpeed car).getMaxSpeedLimit K now).2

/-- The calls `setObjectDetectionTime(d1)`, ..., `setObjectDetectionTime(dn)`, in order. -/
def setObjectDetectionTimes [Mul D] [Add D] [OfScientific D] (ds : List D)
    (s : CarStatus D TrafficObject LaneLine) : CarStatus D TrafficObject LaneLine :=
  ds.foldl (fun hub d => hub.setObjectDetectionTime d) s

/-- The calls `setLaneDetectionTime(d1)`, ..., `setLaneDetectionTime(dn)`, in order. -/
def setLaneDetectionTimes [Mul D] [Add D] [OfScientific D] (ds : List D)
    (s : CarStatus D TrafficObject LaneLine) : CarStatus D TrafficObject LaneLine :=
  ds.foldl (fun hub d => hub.setLaneDetectionTime d) s

end CarStatus

/-- The recurrence as the specification words it: `ema_0 = ema0` and
`ema_k = ema_(k-1) * 0.8 + d_k * 0.2`, where `d_k` is the `k`-th duration of `ds` (counting
from 1).  `emaRecurrence ema0 ds k` is `ema_k`; past the end of `ds` the value stays. -/
def emaRecurrence {D : Type} [Mul D] [Add D] [OfScientific D] (ema0 : D) (ds : List D) :
    Nat → D
  | 0 => ema0
  | k + 1 =>
    match ds[k]? with
    | some d => emaRecurrence ema0 ds k * 0.8 + d * 0.2
    | none => emaRecurrence ema0 ds k

/-- Modelled from the spec: the default-constructed advisory `MaxSpeedLimit()`.  The struct is
declared in `car_status.h`, which is not among the sources.  The spec gives it as "no active
limit", with the "never set" default of 0 for `speed_limit`; the fields the spec does not give
are taken as: no warning, nothing waiting to be notified, time stamps at tick 0. -/
def defaultMaxSpeedLimit : MaxSpeedLimit :=
  { speed_limit := 0
    has_notified := true
    begin_time := 0
    overspeed_warning := false
    overspeed_warning_has_notified := true
    overspeed_warning_notified_time := 0 }

/-- The six mutexes of `CarStatus` that `car_status.cpp` locks. -/
inductive Mutex where
  | start_time_mutex
  | current_img_mutex
  | detected_objects_mutex
  | lane_detection_results_mutex
  | time_mutex
  | speed_limit_mutex
deriving DecidableEq, Repr

/-- The member functions of `CarStatus` defined in `car_status.cpp`. -/
inductive Operation where
  | construct
  | reset
  | getStartTime
  | setCurrentImage
  | getCurrentImage
  | getCurrentImageBoth
  | setDetectedObjects
  | getDetectedObjects
  | setDetectedLaneLines
  | setDetectedLaneLinesOnly
  | getDetectedLaneLines
  | getLineMask
  | getDetectedLinesViz
  | getReducedLinesViz
  | getCarSpeed
  | setCarSpeed
  | resizeByMaxSize
  | setObjectDetectionTime
  | getObjectDetectionTime
  | setLaneDetectionTime
  | getLaneDetectionTime
  | getMaxSpeedLimit
  | removeSpeedLimit
  | triggerSpeedLimit
deriving DecidableEq, Repr

/-- The `std::lock_guard`s that a member function constructs itself, in the order of the
source lines.  A guard holds its mutex until the function returns. -/
def Operation.guards : Operation → List Mutex
  | .construct => [.start_time_mutex]
  | .reset => [.start_time_mutex, .speed_limit_mutex]
  | .getStartTime => [.start_time_mutex]
  | .setCurrentImage => [.current_img_mutex]
  | .getCurrentImage => [.current_img_mutex]
  | .getCurrentImageBoth => [.current_img_mutex]
  | .setDetectedObjects => [.detected_objects_mutex]
  | .getDetectedObjects => [.detected_objects_mutex]
  | .setDetectedLaneLines => [.lane_detection_results_mutex]
  | .setDetectedLaneLinesOnly => [.lane_detection_results_mutex]
  | .getDetectedLaneLines => [.lane_detection_results_mutex]
  | .getLineMask => [.lane_detection_results_mutex]
  | .getDetectedLinesViz => [.lane_detection_results_mutex]
  | .getReducedLinesViz => [.lane_detection_results_mutex]
  | .getCarSpeed => []
  | .setCarSpeed => []
  | .resizeByMaxSize => []
  | .setObjectDetectionTime => [.time_mutex]
  | .getObjectDetectionTime => [.time_mutex]
  | .setLaneDetectionTime => [.time_mutex]
  | .getLaneDetectionTime => [.time_mutex]
  | .getMaxSpeedLimit => [.speed_limit_mutex]
  | .removeSpeedLimit => [.speed_limit_mutex]
  | .triggerSpeedLimit => [.speed_limit_mutex]

/-- The member functions that a member function calls while its guards are held:
`setCurrentImage` calls `resizeByMaxSize`, and `getMaxSpeedLimit` calls `getCarSpeed`. -/
def Operation.callees : Operation → List Operation
  | .setCurrentImage => [.resizeByMaxSize]
  | .getMaxSpeedLimit => [.getCarSpeed]
  | _ => []

/-- Every mutex a thread locks during one call of a member function, in the order it locks
them: the function's own guards, then the guards of the functions it calls. -/
def Operation.locks (op : Operation) : List Mutex :=
  op.guards ++ op.callees.flatMap Operation.guards

/-- A thread inside a call of a member function, `acquired` of whose locks it has taken so
far (the first `acquired` entries of `op.locks`). -/
structure Running where
  op : Operation
  acquired : Nat
deriving DecidableEq, Repr

/-- The mutexes a running thread holds. -/
def Running.holds (r : Running) (x : Mutex) : Prop :=
  x ∈ r.op.locks.take r.acquired

/-- The mutex a running thread asks for next, if it still has one to take. -/
def Running.requests (r : Running) : Option Mutex :=
  r.op.locks[r.acquired]?

/-- A point of an interleaving: what each thread is doing, `none` for a thread that is not
inside a hub operation.  Thread `i` waits for thread `j` when the mutex `i` asks for next is
held by `j`. -/
def waitsFor {Thread : Type} (cfg : Thread → Option Running) (i j : Thread) : Prop :=
  ∃ ri rj x, cfg i = some ri ∧ cfg j = some rj ∧ ri.requests = some x ∧ rj.holds x

/-! ## Sample configuration and states used by the concrete checks -/

/-- A sample choice of the four time constants, in clock ticks. -/
def sampleConstants : TimeConstants :=
  { MAX_SPEED_SIGN_VALID_TIME := 20000
    OVERSPEED_WARNING_AFTER_TRAFFIC_SIGN := 3000
    OVERSPEED_WARNING_INTERVAL := 10000
    TIME_TO_RENOTIFY_A_SAME_TRAFFIC_SIGN := 5000 }

/-- A sample hub state with no active advisory, all time stamps at tick `0`, no images and
no detections. -/
def sampleHub : CarStatus ℚ Nat Nat :=
  { start_time := 0
    current_img := { cols := 0, rows := 0, data := none }
    current_img_origin_size := { cols := 0, rows := 0, data := none }
    detected_objects := []
    detected_lane_lines := []
    lane_line_mask := { cols := 0, rows := 0, data := none }
    detected_line_img := { cols := 0, rows := 0, data := none }
    reduced_line_img := { cols := 0, rows := 0, data := none }
    car_speed := 0
    object_detection_time := 0
    lane_detection_time := 0
    speed_limit :=
      { speed_limit := 0
        has_notified := true
        begin_time := 0
        overspeed_warning := false
        overspeed_warning_has_notified := true
        overspeed_warning_notified_time := 0 } }

/-- The sample hub after `triggerSpeedLimit(50)` at tick 1000. -/
def sampleArmed : CarStatus ℚ Nat Nat :=
  sampleHub.triggerSpeedLimit sampleConstants 1000 50

/-- The hub left by reading `sampleArmed` at tick 4001 with the car at speed 60: the
overspeed warning has been raised. -/
def sampleWarned : CarStatus ℚ Nat Nat :=
  ((sampleArmed.setCarSpeed 60).getMaxSpeedLimit sampleConstants 4001).2

/-- The sample hub right after `reset()` at tick 0: its advisory is the default one. -/
def freshHub : CarStatus ℚ Nat Nat :=
  sampleHub.reset defaultMaxSpeedLimit 0

/-- A sample interpolation for `cv::resize`: it keeps the first `cols * rows` pixel values. -/
def sampleResample (pixels : List Nat) (cols rows : Int) : List Nat :=
  pixels.take (cols * rows).toNat

/-- A sample pixel memory with one buffer, at address 0. -/
def sampleMemory : PixelMemory :=
  { buffers := [[7, 7, 7, 7]] }

/-- A sample image header for the buffer at address 0, with the given dimensions.  (The
model does not tie the number of pixel values of a buffer to the dimensions.) -/
def sampleImage (cols rows : Int) : Mat :=
  { cols := cols, rows := rows, data := some 0 }

/-- A sample pixel memory with three buffers, at the addresses 0, 1 and 2. -/
def laneMemory : PixelMemory :=
  { buffers := [[7, 7, 7, 7], [1, 1, 1, 1], [2, 2, 2, 2]] }

/-- The caller's 2 x 2 image header for the buffer at address `a`. -/
def laneImage (a : Nat) : Mat :=
  { cols := 2, rows := 2, data := some a }

/-- The sample hub after `setDetectedLaneLines(lines, mask, annotated, reduced)` with the
caller's three images at the addresses 0, 1 and 2. -/
def laneHub : CarStatus ℚ Nat Nat :=
  sampleHub.setDetectedLaneLines [] (laneImage 0) (laneImage 1) (laneImage 2)

/-- The pixels of the image a getter returns, read in the memory the getter leaves. -/
def returnedPixels (r : Mat × PixelMemory) : List Nat :=
  r.2.pixels r.1

section Advisory

open CarStatus

variable {D TrafficObject LaneLine : Type}

/-! ### How the two steps of `getMaxSpeedLimit` act on single fields -/

theorem expireSpeedLimit_has_notified (K : TimeConstants) (now : Int) (sl : MaxSpeedLimit) :
    (expireSpeedLimit K now sl).has_notified = sl.has_notified := by
  unfold expireSpeedLimit
  split <;> rfl

theorem expireSpeedLimit_of_expired (K : TimeConstants) (now : Int) (sl : MaxSpeedLimit)
    (h : Timer.calcTimePassed now sl.begin_time > K.MAX_SPEED_SIGN_VALID_TIME) :
    (expireSpeedLimit K now sl).speed_limit = -1 := by
  unfold expireSpeedLimit
  rw [if_pos h]

theorem expireSpeedLimit_of_valid (K : TimeConstants) (now : Int) (sl : MaxSpeedLimit)
    (h : Timer.calcTimePassed now sl.begin_time ≤ K.MAX_SPEED_SIGN_VALID_TIME) :
    expireSpeedLimit K now sl = sl := by
  unfold expireSpeedLimit
  rw [if_neg (not_lt.mpr h)]

theorem checkOverspeed_speed_limit (K : TimeConstants) (now : Int) (car : ℚ)
    (sl : MaxSpeedLimit) :
    (checkOverspeed K now car sl).speed_limit = sl.speed_limit := by
  unfold checkOverspeed
  split_ifs <;> rfl

theorem checkOverspeed_has_notified (K : TimeConstants) (now : Int) (car : ℚ)
    (sl : MaxSpeedLimit) :
    (checkOverspeed K now car sl).has_notified = sl.has_notified := by
  unfold checkOverspeed
  split_ifs <;> rfl

/-- The view returned by `getMaxSpeedLimit` is the record left by the two steps. -/
theorem getMaxSpeedLimit_view (K : TimeConstants) (now : Int) (s : CarStatus D TrafficObject LaneLine) :
    (s.getMaxSpeedLimit K now).1
      = checkOverspeed K now s.car_speed (expireSpeedLimit K now s.speed_limit) := rfl

/-- The advisory stored by `getMaxSpeedLimit` is the view with both flags set. -/
theorem getMaxSpeedLimit_stored (K : TimeConstants) (now : Int) (s : CarStatus D TrafficObject LaneLine) :
    (s.getMaxSpeedLimit K now).2.speed_limit
      = { (s.getMaxSpeedLimit K now).1 with
          has_notified := true, overspeed_warning_has_notified := true } := rfl

/-- The view's `has_notified` is the stored flag from before the call. -/
theorem getMaxSpeedLimit_view_has_notified (K : TimeConstants) (now : Int) (car : ℚ)
    (s : CarStatus D TrafficObject LaneLine) :
    ((s.setCarSpeed car).getMaxSpeedLimit K now).1.has_notified = s.speed_limit.has_notified := by
  rw [getMaxSpeedLimit_view, checkOverspeed_has_notified, expireSpeedLimit_has_notified]
  rfl

/-! ### The claims -/

/-- C1. `triggerSpeedLimit` re-arms exactly when it should: if `speed` differs from the stored
`speed_limit`, or the time elapsed since `begin_time` is greater than
`TIME_TO_RENOTIFY_A_SAME_TRAFFIC_SIGN`, then afterwards `has_notified = false`,
`speed_limit = speed`, `begin_time = now`, and the three overspeed fields are unchanged. -/
theorem triggerSpeedLimit_rearms (K : TimeConstants) (now speed : Int) (s : CarStatus D TrafficObject LaneLine)
    (h : speed ≠ s.speed_limit.speed_limit ∨
      Timer.calcTimePassed now s.speed_limit.begin_time
        > K.TIME_TO_RENOTIFY_A_SAME_TRAFFIC_SIGN) :
    (s.triggerSpeedLimit K now speed).speed_limit.has_notified = false ∧
    (s.triggerSpeedLimit K now speed).speed_limit.speed_limit = speed ∧
    (s.triggerSpeedLimit K now speed).speed_limit.begin_time = now ∧
    (s.triggerSpeedLimit K now speed).speed_limit.overspeed_warning
      = s.speed_limit.overspeed_warning ∧
    (s.triggerSpeedLimit K now speed).speed_limit.overspeed_warning_has_notified
      = s.speed_limit.overspeed_warning_has_notified ∧
    (s.triggerSpeedLimit K now speed).speed_limit.overspeed_warning_notified_time
      = s.speed_limit.overspeed_warning_notified_time := by
  unfold CarStatus.triggerSpeedLimit
  rw [if_pos h]
  exact ⟨rfl, rfl, rfl, rfl, rfl, rfl⟩

/-- C1, concrete check: `trigger(60)` at tick 1000 and `trigger(70)` right after it, still at
tick 1000: the limit becomes 70 and `begin_time` is the clock reading of the second call. -/
theorem triggerSpeedLimit_rearms_witness :
    ((70 : Int) ≠ (sampleHub.triggerSpeedLimit sampleConstants 1000 60).speed_limit.speed_limit ∨
      Timer.calcTimePassed 1000
          (sampleHub.triggerSpeedLimit sampleConstants 1000 60).speed_limit.begin_time
        > sampleConstants.TIME_TO_RENOTIFY_A_SAME_TRAFFIC_SIGN) ∧
    ((sampleHub.triggerSpeedLimit sampleConstants 1000 60).triggerSpeedLimit
        sampleConstants 1000 70).speed_limit.speed_limit = 70 ∧
    ((sampleHub.triggerSpeedLimit sampleConstants 1000 60).triggerSpeedLimit
        sampleConstants 1000 70).speed_limit.begin_time = 1000 :=
  have h : (70 : Int) ≠
        (sampleHub.triggerSpeedLimit sampleConstants 1000 60).speed_limit.speed_limit ∨
      Timer.calcTimePassed 1000
          (sampleHub.triggerSpeedLimit sampleConstants 1000 60).speed_limit.begin_time
        > sampleConstants.TIME_TO_RENOTIFY_A_SAME_TRAFFIC_SIGN := by decide
  have t := triggerSpeedLimit_rearms sampleConstants 1000 70
    (sampleHub.triggerSpeedLimit sampleConstants 1000 60) h
  ⟨h, t.2.1, t.2.2.1⟩

/-- C2. Re-arm suppression: if `speed` equals the stored `speed_limit` and the time elapsed
since `begin_time` is at most `TIME_TO_RENOTIFY_A_SAME_TRAFFIC_SIGN`, then
`triggerSpeedLimit(speed)` leaves the whole state unchanged. -/
theorem triggerSpeedLimit_suppressed (K : TimeConstants) (now speed : Int) (s : CarStatus D TrafficObject LaneLine)
    (hspeed : speed = s.speed_limit.speed_limit)
    (htime : Timer.calcTimePassed now s.speed_limit.begin_time
      ≤ K.TIME_TO_RENOTIFY_A_SAME_TRAFFIC_SIGN) :
    s.triggerSpeedLimit K now speed = s := by
  unfold CarStatus.triggerSpeedLimit
  rw [if_neg]
  rintro (h | h)
  · exact h hspeed
  · exact absurd h (not_lt.mpr htime)

/-- C2, concrete check: `trigger(60)` at tick 1000, then `trigger(60)` again at tick 4000
(3000 ticks later, inside the window of 5000): the second call changes nothing, and
`begin_time` is still 1000. -/
theorem triggerSpeedLimit_suppressed_witness :
    ((60 : Int) = (sampleHub.triggerSpeedLimit sampleConstants 1000 60).speed_limit.speed_limit ∧
      Timer.calcTimePassed 4000
          (sampleHub.triggerSpeedLimit sampleConstants 1000 60).speed_limit.begin_time
        ≤ sampleConstants.TIME_TO_RENOTIFY_A_SAME_TRAFFIC_SIGN) ∧
    (sampleHub.triggerSpeedLimit sampleConstants 1000 60).triggerSpeedLimit
        sampleConstants 4000 60
      = sampleHub.triggerSpeedLimit sampleConstants 1000 60 ∧
    ((sampleHub.triggerSpeedLimit sampleConstants 1000 60).triggerSpeedLimit
        sampleConstants 4000 60).speed_limit.begin_time = 1000 :=
  have h1 : (60 : Int) =
      (sampleHub.triggerSpeedLimit sampleConstants 1000 60).speed_limit.speed_limit := by
    decide
  have h2 : Timer.calcTimePassed 4000
        (sampleHub.triggerSpeedLimit sampleConstants 1000 60).speed_limit.begin_time
      ≤ sampleConstants.TIME_TO_RENOTIFY_A_SAME_TRAFFIC_SIGN := by decide
  have t := triggerSpeedLimit_suppressed sampleConstants 4000 60
    (sampleHub.triggerSpeedLimit sampleConstants 1000 60) h1 h2
  ⟨⟨h1, h2⟩, t, by rw [t]; decide⟩

/-- C3. Expiry: if the time elapsed since `begin_time` is greater than
`MAX_SPEED_SIGN_VALID_TIME`, then, whatever the car speed, the view returned by
`getMaxSpeedLimit` has `speed_limit = -1`, and so has the advisory stored afterwards. -/
theorem getMaxSpeedLimit_expired (K : TimeConstants) (now : Int) (car : ℚ) (s : CarStatus D TrafficObject LaneLine)
    (h : Timer.calcTimePassed now s.speed_limit.begin_time > K.MAX_SPEED_SIGN_VALID_TIME) :
    ((s.setCarSpeed car).getMaxSpeedLimit K now).1.speed_limit = -1 ∧
    ((s.setCarSpeed car).getMaxSpeedLimit K now).2.speed_limit.speed_limit = -1 := by
  have hview : ((s.setCarSpeed car).getMaxSpeedLimit K now).1.speed_limit = -1 := by
    rw [getMaxSpeedLimit_view, checkOverspeed_speed_limit]
    exact expireSpeedLimit_of_expired K now s.speed_limit h
  refine ⟨hview, ?_⟩
  rw [getMaxSpeedLimit_stored]
  exact hview

/-- C3, concrete check: `trigger(50)` at tick 1000, then a read with car speed 0 at tick
21001, which is 20001 ticks later (validity 20000): the view has `speed_limit = -1`. -/
theorem getMaxSpeedLimit_expired_witness :
    Timer.calcTimePassed 21001
        sampleArmed.speed_limit.begin_time
      > sampleConstants.MAX_SPEED_SIGN_VALID_TIME ∧
    ((sampleArmed.setCarSpeed 0).getMaxSpeedLimit
        sampleConstants 21001).1.speed_limit = -1 :=
  have h : Timer.calcTimePassed 21001
        sampleArmed.speed_limit.begin_time
      > sampleConstants.MAX_SPEED_SIGN_VALID_TIME := by decide
  ⟨h, (getMaxSpeedLimit_expired sampleConstants 21001 0
    sampleArmed h).1⟩

/-- C5. Overspeed recovery: if the car speed is less than or equal to the `speed_limit` in
force after the expiry step of the same call, the view returned by `getMaxSpeedLimit` has
`overspeed_warning = false`, whatever `overspeed_warning` was before. -/
theorem getMaxSpeedLimit_overspeed_recovery (K : TimeConstants) (now : Int) (car : ℚ)
    (s : CarStatus D TrafficObject LaneLine)
    (hslow : car ≤ ((expireSpeedLimit K now s.speed_limit).speed_limit : ℚ)) :
    ((s.setCarSpeed car).getMaxSpeedLimit K now).1.overspeed_warning = false := by
  have hview : ((s.setCarSpeed car).getMaxSpeedLimit K now).1
      = checkOverspeed K now car (expireSpeedLimit K now s.speed_limit) := rfl
  rw [hview]
  unfold checkOverspeed
  rw [if_neg (fun c => absurd hslow (not_le.mpr c.2.1)), if_pos hslow]

/-- C5, concrete check: in `sampleWarned` (limit 50, warning raised by a read at speed 60) a
read with car speed 40 at tick 5000 returns `overspeed_warning = false`. -/
theorem getMaxSpeedLimit_overspeed_recovery_witness :
    sampleWarned.speed_limit.overspeed_warning = true ∧
    (40 : ℚ) ≤
      ((expireSpeedLimit sampleConstants 5000 sampleWarned.speed_limit).speed_limit : ℚ) ∧
    ((sampleWarned.setCarSpeed 40).getMaxSpeedLimit sampleConstants 5000).1.overspeed_warning
      = false :=
  have h0 : sampleWarned.speed_limit.overspeed_warning = true := by
    decide
  have h : (40 : ℚ) ≤
      ((expireSpeedLimit sampleConstants 5000 sampleWarned.speed_limit).speed_limit : ℚ) := by
    decide
  ⟨h0, h, getMaxSpeedLimit_overspeed_recovery sampleConstants 5000 40 sampleWarned h⟩

/-- C6. Read marks as notified: after `getMaxSpeedLimit` the stored advisory has
`has_notified = true` and `overspeed_warning_has_notified = true`; the returned view agrees
with the stored advisory on `speed_limit`, `begin_time`, `overspeed_warning` and
`overspeed_warning_notified_time`; and the view's `has_notified` is the stored `has_notified`
from before the call. -/
theorem getMaxSpeedLimit_marks_notified (K : TimeConstants) (now : Int) (car : ℚ)
    (s : CarStatus D TrafficObject LaneLine) :
    ((s.setCarSpeed car).getMaxSpeedLimit K now).2.speed_limit.has_notified = true ∧
    ((s.setCarSpeed car).getMaxSpeedLimit K now).2.speed_limit.overspeed_warning_has_notified
      = true ∧
    ((s.setCarSpeed car).getMaxSpeedLimit K now).1.speed_limit
      = ((s.setCarSpeed car).getMaxSpeedLimit K now).2.speed_limit.speed_limit ∧
    ((s.setCarSpeed car).getMaxSpeedLimit K now).1.begin_time
      = ((s.setCarSpeed car).getMaxSpeedLimit K now).2.speed_limit.begin_time ∧
    ((s.setCarSpeed car).getMaxSpeedLimit K now).1.overspeed_warning
      = ((s.setCarSpeed car).getMaxSpeedLimit K now).2.speed_limit.overspeed_warning ∧
    ((s.setCarSpeed car).getMaxSpeedLimit K now).1.overspeed_warning_notified_time
      = ((s.setCarSpeed car).getMaxSpeedLimit K now).2.speed_limit.overspeed_warning_notified_time ∧
    ((s.setCarSpeed car).getMaxSpeedLimit K now).1.has_notified = s.speed_limit.has_notified := by
  exact ⟨rfl, rfl, rfl, rfl, rfl, rfl, getMaxSpeedLimit_view_has_notified K now car s⟩

/-- C8. `removeSpeedLimit` deactivates the advisory: afterwards `speed_limit = 0` and
`has_notified = false`, and `begin_time` and the three overspeed fields are unchanged. -/
theorem removeSpeedLimit_deactivates (s : CarStatus D TrafficObject LaneLine) :
    s.removeSpeedLimit.speed_limit.speed_limit = 0 ∧
    s.removeSpeedLimit.speed_limit.has_notified = false ∧
    s.removeSpeedLimit.speed_limit.begin_time = s.speed_limit.begin_time ∧
    s.removeSpeedLimit.speed_limit.overspeed_warning = s.speed_limit.overspeed_warning ∧
    s.removeSpeedLimit.speed_limit.overspeed_warning_has_notified
      = s.speed_limit.overspeed_warning_has_notified ∧
    s.removeSpeedLimit.speed_limit.overspeed_warning_notified_time
      = s.speed_limit.overspeed_warning_notified_time :=
  ⟨rfl, rfl, rfl, rfl, rfl, rfl⟩

/-- In a run of reads that starts from a hub whose `has_notified` is set, every view has
`has_notified = true`. -/
theorem getMaxSpeedLimitRun_has_notified (K : TimeConstants) (reads : List (ℚ × Int)) :
    ∀ s : CarStatus D TrafficObject LaneLine, s.speed_limit.has_notified = true →
      ∀ v ∈ getMaxSpeedLimitRun K reads s, v.has_notified = true := by
  induction reads with
  | nil =>
    intro s _ v hv
    simp [getMaxSpeedLimitRun] at hv
  | cons r rest ih =>
    intro s hs v hv
    obtain ⟨car, now⟩ := r
    rw [getMaxSpeedLimitRun, List.mem_cons] at hv
    rcases hv with hv | hv
    · rw [hv]
      exact (getMaxSpeedLimit_view_has_notified K now car s).trans hs
    · exact ih _ rfl v hv

/-- C7. One notification per re-arm: when `triggerSpeedLimit(speed)` re-arms, the first
`getMaxSpeedLimit` call after it returns `has_notified = false` (and `speed_limit = speed`
when the time elapsed since the trigger does not exceed `MAX_SPEED_SIGN_VALID_TIME`), and
every later `getMaxSpeedLimit` call, with only car-speed updates in between, returns
`has_notified = true`, whatever the car speeds and clock readings. -/
theorem one_notification_per_rearm (K : TimeConstants) (now speed : Int) (s : CarStatus D TrafficObject LaneLine)
    (car1 : ℚ) (now1 : Int) (later : List (ℚ × Int))
    (hrearm : speed ≠ s.speed_limit.speed_limit ∨
      Timer.calcTimePassed now s.speed_limit.begin_time
        > K.TIME_TO_RENOTIFY_A_SAME_TRAFFIC_SIGN) :
    (((s.triggerSpeedLimit K now speed).setCarSpeed car1).getMaxSpeedLimit K now1).1.has_notified
      = false ∧
    (¬ Timer.calcTimePassed now1 now > K.MAX_SPEED_SIGN_VALID_TIME →
      (((s.triggerSpeedLimit K now speed).setCarSpeed car1).getMaxSpeedLimit
        K now1).1.speed_limit = speed) ∧
    ∀ v ∈ getMaxSpeedLimitRun K later
        (((s.triggerSpeedLimit K now speed).setCarSpeed car1).getMaxSpeedLimit K now1).2,
      v.has_notified = true := by
  have harm : (s.triggerSpeedLimit K now speed).speed_limit
      = { s.speed_limit with has_notified := false, speed_limit := speed, begin_time := now } := by
    unfold CarStatus.triggerSpeedLimit
    rw [if_pos hrearm]
  refine ⟨?_, ?_, ?_⟩
  · rw [getMaxSpeedLimit_view_has_notified, harm]
  · intro hvalid
    rw [getMaxSpeedLimit_view, checkOverspeed_speed_limit]
    have hs : ((s.triggerSpeedLimit K now speed).setCarSpeed car1).speed_limit
        = { s.speed_limit with
            has_notified := false, speed_limit := speed, begin_time := now } := harm
    rw [hs, expireSpeedLimit_of_valid K now1 _ (not_lt.mp hvalid)]
  · exact getMaxSpeedLimitRun_has_notified K later _ rfl

/-- C7, concrete check: `triggerSpeedLimit(50)` at tick 1000 on the sample hub re-arms
(the stored limit is 0).  The first read (speed 60, tick 4001) is not yet notified and shows
the limit 50; the three reads after it (speed 60 at 4002, speed 40 at 5000, speed 0 at 30000)
are all marked as notified. -/
theorem one_notification_per_rearm_witness :
    ((50 : Int) ≠ sampleHub.speed_limit.speed_limit ∨
      Timer.calcTimePassed 1000 sampleHub.speed_limit.begin_time
        > sampleConstants.TIME_TO_RENOTIFY_A_SAME_TRAFFIC_SIGN) ∧
    (((sampleHub.triggerSpeedLimit sampleConstants 1000 50).setCarSpeed 60).getMaxSpeedLimit
        sampleConstants 4001).1.has_notified = false ∧
    (((sampleHub.triggerSpeedLimit sampleConstants 1000 50).setCarSpeed 60).getMaxSpeedLimit
        sampleConstants 4001).1.speed_limit = 50 ∧
    (getMaxSpeedLimitRun sampleConstants [(60, 4002), (40, 5000), (0, 30000)]
        (((sampleHub.triggerSpeedLimit sampleConstants 1000 50).setCarSpeed 60).getMaxSpeedLimit
          sampleConstants 4001).2).length = 3 ∧
    (getMaxSpeedLimitRun sampleConstants [(60, 4002), (40, 5000), (0, 30000)]
        (((sampleHub.triggerSpeedLimit sampleConstants 1000 50).setCarSpeed 60).getMaxSpeedLimit
          sampleConstants 4001).2).all (fun v => v.has_notified) = true :=
  have h : (50 : Int) ≠ sampleHub.speed_limit.speed_limit ∨
      Timer.calcTimePassed 1000 sampleHub.speed_limit.begin_time
        > sampleConstants.TIME_TO_RENOTIFY_A_SAME_TRAFFIC_SIGN := by decide
  have t := one_notification_per_rearm sampleConstants 1000 50 sampleHub 60 4001
    [(60, 4002), (40, 5000), (0, 30000)] h
  ⟨h, t.1, t.2.1 (by decide), rfl, List.all_eq_true.mpr t.2.2⟩

end Advisory

section DetectionTimes

open CarStatus

variable {D TrafficObject LaneLine : Type} [Mul D] [Add D] [OfScientific D]

/-! ### Detection-time estimates -/

theorem setObjectDetectionTimes_lane (ds : List D) :
    ∀ s : CarStatus D TrafficObject LaneLine, (s.setObjectDetectionTimes ds).lane_detection_time
      = s.lane_detection_time := by
  induction ds with
  | nil => intro s; rfl
  | cons d rest ih =>
    intro s
    exact ih (s.setObjectDetectionTime d)

theorem setLaneDetectionTimes_object (ds : List D) :
    ∀ s : CarStatus D TrafficObject LaneLine, (s.setLaneDetectionTimes ds).object_detection_time
      = s.object_detection_time := by
  induction ds with
  | nil => intro s; rfl
  | cons d rest ih =>
    intro s
    exact ih (s.setLaneDetectionTime d)

/-- After the first `k` calls of `setObjectDetectionTimes` the estimate is `ema_k`. -/
theorem setObjectDetectionTimes_take (ds : List D) (s : CarStatus D TrafficObject LaneLine) :
    ∀ k, k ≤ ds.length →
      (s.setObjectDetectionTimes (ds.take k)).object_detection_time
        = emaRecurrence s.object_detection_time ds k := by
  intro k
  induction k with
  | zero => intro _; rfl
  | succ k ih =>
    intro hk
    have hlt : k < ds.length := hk
    have hget : ds[k]? = some ds[k] := List.getElem?_eq_getElem hlt
    have htake : ds.take (k + 1) = ds.take k ++ [ds[k]] := by
      rw [List.take_succ, hget]
      rfl
    rw [emaRecurrence, hget, ← ih (Nat.le_of_lt hlt), htake]
    unfold CarStatus.setObjectDetectionTimes
    rw [List.foldl_append]
    rfl

/-- After the first `k` calls of `setLaneDetectionTimes` the estimate is `ema_k`. -/
theorem setLaneDetectionTimes_take (ds : List D) (s : CarStatus D TrafficObject LaneLine) :
    ∀ k, k ≤ ds.length →
      (s.setLaneDetectionTimes (ds.take k)).lane_detection_time
        = emaRecurrence s.lane_detection_time ds k := by
  intro k
  induction k with
  | zero => intro _; rfl
  | succ k ih =>
    intro hk
    have hlt : k < ds.length := hk
    have hget : ds[k]? = some ds[k] := List.getElem?_eq_getElem hlt
    have htake : ds.take (k + 1) = ds.take k ++ [ds[k]] := by
      rw [List.take_succ, hget]
      rfl
    rw [emaRecurrence, hget, ← ih (Nat.le_of_lt hlt), htake]
    unfold CarStatus.setLaneDetectionTimes
    rw [List.foldl_append]
    rfl

/-- C10. EMA recurrence: after `setObjectDetectionTime(d1)`, ..., `setObjectDetectionTime(dn)`
the value returned by `getObjectDetectionTime` is `ema_n` of the recurrence
`ema_k = ema_(k-1) * 0.8 + d_k * 0.2` started from the initial estimate, and the
lane-detection estimate is unchanged; symmetrically for `setLaneDetectionTime` and
`getLaneDetectionTime`. -/
theorem detection_time_ema_recurrence (ds : List D) (s : CarStatus D TrafficObject LaneLine) :
    (s.setObjectDetectionTimes ds).getObjectDetectionTime
      = emaRecurrence s.getObjectDetectionTime ds ds.length ∧
    (s.setObjectDetectionTimes ds).getLaneDetectionTime = s.getLaneDetectionTime ∧
    (s.setLaneDetectionTimes ds).getLaneDetectionTime
      = emaRecurrence s.getLaneDetectionTime ds ds.length ∧
    (s.setLaneDetectionTimes ds).getObjectDetectionTime = s.getObjectDetectionTime := by
  have hobj := setObjectDetectionTimes_take ds s ds.length (Nat.le_refl _)
  have hlane := setLaneDetectionTimes_take ds s ds.length (Nat.le_refl _)
  rw [List.take_length] at hobj hlane
  exact ⟨hobj, setObjectDetectionTimes_lane ds s, hlane, setLaneDetectionTimes_object ds s⟩

/-- Five samples over exact rationals, from the estimate 0: the durations 100, 50, 150, 100, 0
give 20, 26, 50.8, 60.64 and finally 48.512. -/
theorem detection_time_ema_five_samples :
    (sampleHub.setObjectDetectionTimes [100, 50, 150, 100, 0]).getObjectDetectionTime
      = 48.512 ∧
    emaRecurrence (0 : ℚ) [100, 50, 150, 100, 0] 5 = 48.512 ∧
    (sampleHub.setObjectDetectionTimes [100, 50, 150, 100, 0]).getLaneDetectionTime = 0 := by
  refine ⟨?_, ?_, rfl⟩
  · norm_num [CarStatus.setObjectDetectionTimes, CarStatus.setObjectDetectionTime,
      CarStatus.getObjectDetectionTime, sampleHub]
  · norm_num [emaRecurrence]

end DetectionTimes

section Images

open CarStatus

variable {D TrafficObject LaneLine : Type}

/-! ### Rounding and `cv::resize` -/

/-- A value of at most one half rounds to at most 0: a tie goes to the even neighbour 0. -/
theorem cvRound_le_zero (x : ℚ) (h : x ≤ 1 / 2) : cvRound x ≤ 0 := by
  have hfloor : ⌊x⌋ ≤ 0 := by
    have : ⌊x⌋ < 1 := Int.floor_lt.mpr (lt_of_le_of_lt h (by norm_num))
    omega
  unfold cvRound
  split_ifs with h1 h2 h3
  · exact hfloor
  · rcases lt_or_ge ⌊x⌋ 0 with hneg | hzero
    · omega
    · have hz : ⌊x⌋ = 0 := le_antisymm hfloor hzero
      rw [hz] at h2
      simp only [Int.cast_zero, sub_zero] at h2
      exact absurd h (not_le.mpr h2)
  · exact hfloor
  · rcases lt_or_ge ⌊x⌋ 0 with hneg | hzero
    · omega
    · have hz : ⌊x⌋ = 0 := le_antisymm hfloor hzero
      rw [hz] at h3
      simp at h3

/-- C12. Resize pass-through: if `max_size <= 0`, or both the width and the height are below
`max_size`, `resizeByMaxSize` returns the input image itself, the same header for the same
pixel buffer, and the pixel memory is left as it was: same dimensions and same contents. -/
theorem resizeByMaxSize_passthrough (resample : List Nat → Int → Int → List Nat) (img : Mat)
    (max_size : Int) (m : PixelMemory)
    (h : max_size ≤ 0 ∨ (img.cols < max_size ∧ img.rows < max_size)) :
    resizeByMaxSize resample img max_size m = some (img, m) := by
  unfold resizeByMaxSize
  rw [if_pos h.symm]

/-- C12, concrete checks: a 100 x 50 image with `max_size = 800` and a 1920 x 1080 image with
`max_size = 0` both come back as they went in. -/
theorem resizeByMaxSize_passthrough_witness :
    ((800 : Int) ≤ 0 ∨ ((sampleImage 100 50).cols < 800 ∧ (sampleImage 100 50).rows < 800)) ∧
    resizeByMaxSize sampleResample (sampleImage 100 50) 800 sampleMemory
      = some (sampleImage 100 50, sampleMemory) ∧
    ((0 : Int) ≤ 0 ∨ ((sampleImage 1920 1080).cols < 0 ∧ (sampleImage 1920 1080).rows < 0)) ∧
    resizeByMaxSize sampleResample (sampleImage 1920 1080) 0 sampleMemory
      = some (sampleImage 1920 1080, sampleMemory) :=
  have h1 : (800 : Int) ≤ 0 ∨
      ((sampleImage 100 50).cols < 800 ∧ (sampleImage 100 50).rows < 800) := by decide
  have h2 : (0 : Int) ≤ 0 ∨
      ((sampleImage 1920 1080).cols < 0 ∧ (sampleImage 1920 1080).rows < 0) := by decide
  ⟨h1, resizeByMaxSize_passthrough sampleResample (sampleImage 100 50) 800 sampleMemory h1,
    h2, resizeByMaxSize_passthrough sampleResample (sampleImage 1920 1080) 0 sampleMemory h2⟩

end Images

section Hub

open CarStatus

variable {D TrafficObject LaneLine : Type}

/-! ### `reset` -/

/-- C13. `reset` frame condition: after `reset()` the start time is the current clock reading
and the speed advisory is the default-constructed advisory (an inactive one,
`speed_limit <= 0`, whenever the default-constructed advisory is inactive, as the one the
specification gives is), while the current
frame pair, the detected objects, the lane lines and their three visualization images, the
car speed and both detection-time estimates are unchanged. -/
theorem reset_frame (dflt : MaxSpeedLimit) (now : Int)
    (s : CarStatus D TrafficObject LaneLine) :
    (s.reset dflt now).getStartTime = now ∧
    (s.reset dflt now).speed_limit = dflt ∧
    (dflt.speed_limit ≤ 0 → (s.reset dflt now).speed_limit.speed_limit ≤ 0) ∧
    (s.reset defaultMaxSpeedLimit now).speed_limit.speed_limit ≤ 0 ∧
    (s.reset dflt now).current_img = s.current_img ∧
    (s.reset dflt now).current_img_origin_size = s.current_img_origin_size ∧
    (s.reset dflt now).detected_objects = s.detected_objects ∧
    (s.reset dflt now).detected_lane_lines = s.detected_lane_lines ∧
    (s.reset dflt now).lane_line_mask = s.lane_line_mask ∧
    (s.reset dflt now).detected_line_img = s.detected_line_img ∧
    (s.reset dflt now).reduced_line_img = s.reduced_line_img ∧
    (s.reset dflt now).car_speed = s.car_speed ∧
    (s.reset dflt now).object_detection_time = s.object_detection_time ∧
    (s.reset dflt now).lane_detection_time = s.lane_detection_time :=
  ⟨rfl, rfl, fun h => h, le_refl (0 : Int), rfl, rfl, rfl, rfl, rfl, rfl, rfl, rfl, rfl, rfl⟩

/-- C13, concrete check: `reset()` at tick 9000 on `sampleWarned`, a hub with the limit 50 and
a raised warning, with the default advisory of the specification: the advisory is inactive
again, the start time is 9000, the car speed is still 60. -/
theorem reset_frame_witness :
    defaultMaxSpeedLimit.speed_limit ≤ 0 ∧
    sampleWarned.speed_limit.speed_limit = 50 ∧
    (sampleWarned.reset defaultMaxSpeedLimit 9000).speed_limit.speed_limit ≤ 0 ∧
    (sampleWarned.reset defaultMaxSpeedLimit 9000).getStartTime = 9000 ∧
    (sampleWarned.reset defaultMaxSpeedLimit 9000).car_speed = 60 :=
  have h : defaultMaxSpeedLimit.speed_limit ≤ 0 := by decide
  have t := reset_frame defaultMaxSpeedLimit 9000 sampleWarned
  ⟨h, by decide, t.2.2.1 h, t.1, t.2.2.2.2.2.2.2.2.2.2.2.1.trans (by decide)⟩

/-! ### Image copies -/

/-- `clone()` of an image with data refers to a buffer that did not exist before. -/
theorem clone_data (img : Mat) (m : PixelMemory) (a : Nat) (h : img.data = some a) :
    (img.clone m).1.data = some m.buffers.length := by
  unfold Mat.clone
  rw [h]

/-- `clone()` copies the pixels. -/
theorem clone_pixels (img : Mat) (m : PixelMemory) :
    (img.clone m).2.pixels (img.clone m).1 = m.pixels img := by
  unfold Mat.clone
  cases h : img.data with
  | none => simp [PixelMemory.pixels, h]
  | some a => simp [PixelMemory.pixels, h]

/-- The four-argument `setDetectedLaneLines` stores the caller's own headers: each stored
image refers to the same pixel buffer as the argument. -/
theorem setDetectedLaneLines_stores_headers (lane_lines : List LaneLine)
    (lane_line_mask detected_line_img reduced_line_img : Mat)
    (s : CarStatus D TrafficObject LaneLine) :
    (s.setDetectedLaneLines lane_lines lane_line_mask detected_line_img
      reduced_line_img).lane_line_mask = lane_line_mask ∧
    (s.setDetectedLaneLines lane_lines lane_line_mask detected_line_img
      reduced_line_img).detected_line_img = detected_line_img ∧
    (s.setDetectedLaneLines lane_lines lane_line_mask detected_line_img
      reduced_line_img).reduced_line_img = reduced_line_img :=
  ⟨rfl, rfl, rfl⟩

/-- What a getter returns shows the pixels of the image it clones. -/
theorem returnedPixels_clone (img : Mat) (m : PixelMemory) :
    returnedPixels (img.clone m) = m.pixels img :=
  clone_pixels img m

/-- A write through a header with a valid address shows in every header for that address. -/
theorem pixels_overwrite_same (m : PixelMemory) (img other : Mat) (px : List Nat) (a : Nat)
    (himg : img.data = some a) (hother : other.data = some a) (hvalid : a < m.buffers.length) :
    (m.overwrite img px).pixels other = px := by
  unfold PixelMemory.overwrite PixelMemory.pixels
  rw [himg, hother]
  simp [List.getD_eq_getElem?_getD, List.getElem?_set, hvalid]

/-- A write through a header does not show in a header for another address. -/
theorem pixels_overwrite_other (m : PixelMemory) (img other : Mat) (px : List Nat) (a b : Nat)
    (himg : img.data = some a) (hother : other.data = some b) (hne : a ≠ b) :
    (m.overwrite img px).pixels other = m.pixels other := by
  unfold PixelMemory.overwrite PixelMemory.pixels
  rw [himg, hother]
  simp [List.getD_eq_getElem?_getD, List.getElem?_set, hne]

/-- After the four-argument `setDetectedLaneLines`, a write of the caller through its own
mask header is what `getLineMask` returns. -/
theorem getLineMask_after_caller_write (lane_lines : List LaneLine)
    (lane_line_mask detected_line_img reduced_line_img : Mat)
    (s : CarStatus D TrafficObject LaneLine) (m : PixelMemory) (px : List Nat) (a : Nat)
    (hdata : lane_line_mask.data = some a) (hvalid : a < m.buffers.length) :
    returnedPixels
      ((s.setDetectedLaneLines lane_lines lane_line_mask detected_line_img
        reduced_line_img).getLineMask (m.overwrite lane_line_mask px)) = px := by
  unfold CarStatus.getLineMask
  rw [returnedPixels_clone]
  exact pixels_overwrite_same m lane_line_mask lane_line_mask px a hdata hdata hvalid

/-- The image `resizeByMaxSize` returns is the caller's header or a header for a new
buffer. -/
theorem resizeByMaxSize_data (resample : List Nat → Int → Int → List Nat) (img : Mat)
    (max_size : Int) (m : PixelMemory) (resized : Mat) (m1 : PixelMemory)
    (h : resizeByMaxSize resample img max_size m = some (resized, m1)) :
    (resized = img ∧ m1 = m) ∨
    (resized.data = some m.buffers.length ∧ m1.buffers.length = m.buffers.length + 1) := by
  unfold resizeByMaxSize cvResize at h
  simp only [] at h
  split_ifs at h <;> simp only [Option.some.injEq, Prod.mk.injEq] at h
  · exact Or.inl ⟨h.1.symm, h.2.symm⟩
  · right
    rw [← h.1, ← h.2]
    simp
  · right
    rw [← h.1, ← h.2]
    simp

/-- `setCurrentImage` does copy: after it, a write of the caller through its own header does
not change what `getCurrentImage` returns. -/
theorem getCurrentImage_after_caller_write (resample : List Nat → Int → Int → List Nat)
    (IMG_MAX_SIZE : Int) (img : Mat) (m m' : PixelMemory)
    (s s' : CarStatus D TrafficObject LaneLine) (px : List Nat) (a : Nat)
    (hdata : img.data = some a) (hvalid : a < m.buffers.length)
    (hset : s.setCurrentImage resample IMG_MAX_SIZE img m = some (m', s')) :
    returnedPixels (s'.getCurrentImage (m'.overwrite img px))
      = returnedPixels (s'.getCurrentImage m') := by
  have hstored : ∃ b, s'.current_img.data = some b ∧ a ≠ b := by
    unfold CarStatus.setCurrentImage at hset
    cases hres : resizeByMaxSize resample img IMG_MAX_SIZE m with
    | none =>
      rw [hres] at hset
      exact Option.noConfusion hset
    | some r =>
      obtain ⟨resized, m1⟩ := r
      rw [hres] at hset
      simp only [Option.some.injEq, Prod.mk.injEq] at hset
      rw [← hset.2]
      rcases resizeByMaxSize_data resample img IMG_MAX_SIZE m resized m1 hres with
        ⟨hsame, hm⟩ | ⟨hnew, hlen⟩
      · refine ⟨m.buffers.length, ?_, Nat.ne_of_lt hvalid⟩
        rw [hsame, hm]
        exact clone_data img m a hdata
      · refine ⟨m1.buffers.length, clone_data resized m1 _ hnew, ?_⟩
        omega
  obtain ⟨b, hb, hne⟩ := hstored
  unfold CarStatus.getCurrentImage
  rw [returnedPixels_clone, returnedPixels_clone]
  exact pixels_overwrite_other m' img s'.current_img px a b hdata hb hne

/-- C14, the code at the failing input.  The caller stores three images with
`setDetectedLaneLines` and then overwrites its own mask in place with zeros.  The hub's mask
refers to the caller's buffer (address 0), so `getLineMask`, which returned the pixels
7, 7, 7, 7 before the write, returns 0, 0, 0, 0 after it.  `setCurrentImage` does make a
copy: the same write after `setCurrentImage` leaves what `getCurrentImage` returns
unchanged. -/
theorem setDetectedLaneLines_shares_buffer :
    laneHub.lane_line_mask.data = (laneImage 0).data ∧
    returnedPixels (laneHub.getLineMask laneMemory) = [7, 7, 7, 7] ∧
    returnedPixels (laneHub.getLineMask (laneMemory.overwrite (laneImage 0) [0, 0, 0, 0]))
      = [0, 0, 0, 0] ∧
    (sampleHub.setCurrentImage sampleResample 800 (laneImage 0) laneMemory).map
        (fun r => returnedPixels (r.2.getCurrentImage r.1))
      = some [7, 7, 7, 7] ∧
    (sampleHub.setCurrentImage sampleResample 800 (laneImage 0) laneMemory).map
        (fun r => returnedPixels
          (r.2.getCurrentImage (r.1.overwrite (laneImage 0) [0, 0, 0, 0])))
      = some [7, 7, 7, 7] := by
  decide

end Hub

section AdvisoryRuns

open CarStatus

variable {D TrafficObject LaneLine : Type}

/-! ### When a warning is raised -/

/-- C17, the code at the failing input.  After `reset()` and `triggerSpeedLimit(50)` at tick
1000, three consecutive reads with the car at speed 60, at the ticks 4001, 14002 and 14003.
All three views have `overspeed_warning = true`; the second and the third both have
`overspeed_warning_has_notified = false`, one tick apart, the interval being 10000 ticks: the
re-notify branch does not renew `overspeed_warning_notified_time`, which stays 4001. -/
theorem renotify_cadence_failing_run :
    (getMaxSpeedLimitRun sampleConstants [(60, 4001), (60, 14002), (60, 14003)]
        (freshHub.triggerSpeedLimit sampleConstants 1000 50)).map
        (fun v => (v.overspeed_warning, v.overspeed_warning_has_notified,
          v.overspeed_warning_notified_time))
      = [(true, false, 4001), (true, false, 4001), (true, false, 4001)] ∧
    ¬ (14003 : Int) - 14002 > sampleConstants.OVERSPEED_WARNING_INTERVAL := by
  decide

end AdvisoryRuns

section Locks

/-! ### Lock order -/

/-- No member function that is called with guards held constructs a guard of its own, so the
locks of a member function are its own guards. -/
theorem Operation.locks_eq_guards (op : Operation) : op.locks = op.guards := by
  cases op <;> rfl

/-- A running thread that holds a mutex and asks for another one is inside `reset`, holds
`start_time_mutex` and asks for `speed_limit_mutex`. -/
theorem Running.holds_and_requests (r : Running) (x y : Mutex)
    (hx : r.holds x) (hy : r.requests = some y) :
    r.op = Operation.reset ∧ r.acquired = 1 ∧
    x = Mutex.start_time_mutex ∧ y = Mutex.speed_limit_mutex := by
  obtain ⟨op, n⟩ := r
  unfold Running.holds at hx
  unfold Running.requests at hy
  rw [Operation.locks_eq_guards] at hx hy
  cases op <;> rcases n with _ | _ | n <;> simp_all [Operation.guards]

/-- A running thread that asks for `start_time_mutex` holds no mutex. -/
theorem Running.requests_start_time (r : Running) (x : Mutex)
    (hreq : r.requests = some Mutex.start_time_mutex) : ¬ r.holds x := by
  obtain ⟨op, n⟩ := r
  unfold Running.requests at hreq
  unfold Running.holds
  rw [Operation.locks_eq_guards] at hreq ⊢
  cases op <;> rcases n with _ | _ | n <;>
    simp [Operation.guards] at hreq ⊢

/-- A thread that waits for a waiting thread is not waited for itself. -/
theorem waitsFor_chain {Thread : Type} (cfg : Thread → Option Running) (l i j k : Thread)
    (hli : waitsFor cfg l i) (hij : waitsFor cfg i j) (hjk : waitsFor cfg j k) : False := by
  obtain ⟨_, ri, z, _, hi, _, hz⟩ := hli
  obtain ⟨ri2, rj, x, hi2, hj, hx, hjx⟩ := hij
  obtain ⟨rj2, _, y, hj2, _, hy, _⟩ := hjk
  have e1 : ri2 = ri := Option.some.inj (hi2.symm.trans hi)
  have e2 : rj2 = rj := Option.some.inj (hj2.symm.trans hj)
  subst e1
  subst e2
  have hfacts := Running.holds_and_requests rj2 x y hjx hy
  rw [hfacts.2.2.1] at hx
  exact Running.requests_start_time ri2 z hx hz

/-- The waits-for relation of any point of any interleaving has no cycle. -/
theorem waitsFor_acyclic {Thread : Type} (cfg : Thread → Option Running) (i : Thread) :
    ¬ Relation.TransGen (waitsFor cfg) i i := by
  intro hcycle
  obtain ⟨j, hij, hji⟩ := Relation.TransGen.head'_iff.mp hcycle
  obtain ⟨l, _, hli⟩ := Relation.TransGen.tail'_iff.mp hcycle
  rcases Relation.ReflTransGen.cases_head hji with hEq | ⟨k, hjk, _⟩
  · subst hEq
    exact waitsFor_chain cfg l j j j hli hij hij
  · exact waitsFor_chain cfg l i j k hli hij hjk

/-- The waits-for relation is not empty: with thread 0 inside `reset` holding
`start_time_mutex`, thread 1 inside `getMaxSpeedLimit` holding `speed_limit_mutex` and
thread 2 entering `getStartTime`, thread 2 waits for thread 0 and thread 0 for thread 1. -/
theorem waitsFor_example :
    waitsFor (fun t : Nat =>
        if t = 0 then some { op := Operation.reset, acquired := 1 }
        else if t = 1 then some { op := Operation.getMaxSpeedLimit, acquired := 1 }
        else if t = 2 then some { op := Operation.getStartTime, acquired := 0 }
        else none) 2 0 ∧
    waitsFor (fun t : Nat =>
        if t = 0 then some { op := Operation.reset, acquired := 1 }
        else if t = 1 then some { op := Operation.getMaxSpeedLimit, acquired := 1 }
        else if t = 2 then some { op := Operation.getStartTime, acquired := 0 }
        else none) 0 1 := by
  constructor
  · exact ⟨_, _, Mutex.start_time_mutex, rfl, rfl, rfl, List.mem_cons_self _ _⟩
  · exact ⟨_, _, Mutex.speed_limit_mutex, rfl, rfl, rfl, List.mem_cons_self _ _⟩

/-- C15. Deadlock freedom by lock order: `reset` is the only operation that takes two locks,
and it takes `start_time_mutex` before `speed_limit_mutex`; every other operation takes at
most one lock, also `getMaxSpeedLimit`, which calls `getCarSpeed` while it holds
`speed_limit_mutex`; and at no point of any interleaving of hub operations, whatever each
thread is running and however many of its locks it has taken, is there a cycle of threads
each waiting for the next. -/
theorem lock_order_no_cyclic_wait :
    (∀ op : Operation, 2 ≤ op.locks.length ↔ op = Operation.reset) ∧
    Operation.reset.locks = [Mutex.start_time_mutex, Mutex.speed_limit_mutex] ∧
    (∀ op : Operation, op ≠ Operation.reset → op.locks.length ≤ 1) ∧
    Operation.getMaxSpeedLimit.locks = [Mutex.speed_limit_mutex] ∧
    ∀ (Thread : Type) (cfg : Thread → Option Running) (i : Thread),
      ¬ Relation.TransGen (waitsFor cfg) i i := by
  refine ⟨?_, rfl, ?_, rfl, fun Thread cfg i => waitsFor_acyclic cfg i⟩
  · intro op
    cases op <;> simp [Operation.locks, Operation.guards, Operation.callees]
  · intro op hne
    cases op <;> simp [Operation.locks, Operation.guards, Operation.callees] at hne ⊢

end Locks
